import Mathlib

/-!
Verification of the Weather-Chat-Bot intent / extraction / scoring engine.

The definitions below are a shallow embedding of `backend/app/main.py`
(activity catalog, intent classifier, activity-suitability scorer) and of
`backend/app/weather_tools_fixed.py` (provider error handling).  Strings are
modelled as `List Char`; all numeric weather metrics are modelled as `ℚ`
(the Python code performs only order comparisons, additions and subtractions
on them, which ℚ reproduces exactly).
-/

namespace WeatherBot

/-- Qualitative rating level.  The source uses the string literals
"excellent" / "good" / "moderate" / "poor" both for per-factor impacts and
for the final recommendation tier; we model them as one enumeration. -/
inductive Rating where
  | excellent
  | good
  | moderate
  | poor
deriving DecidableEq

/-- Humidity preference of an activity profile: the source uses the strings
"low" / "moderate" / "any". -/
inductive HumidityPref where
  | low
  | moderate
  | any
deriving DecidableEq

/-- One entry of the `ACTIVITIES` catalog (main.py lines 45-109). -/
structure ActivityReq where
  optimal_temp : ℚ × ℚ
  max_wind : ℚ
  precipitation_tolerance : ℚ
  humidity_preference : HumidityPref
  time_requirements : List (List Char)
  outdoor : Bool
  category : List Char
deriving DecidableEq

/-- The requirement profile of "cricket" from the catalog. -/
def cricketReq : ActivityReq :=
  ⟨(20, 35), 15, 0, .moderate, ["daylight".toList, "evening_suitable".toList], true,
    "sports".toList⟩

/-- The requirement profile of "football" from the catalog. -/
def footballReq : ActivityReq :=
  ⟨(15, 30), 20, 5, .moderate, ["daylight".toList, "evening_suitable".toList], true,
    "sports".toList⟩

/-- The requirement profile of "running" from the catalog. -/
def runningReq : ActivityReq :=
  ⟨(10, 25), 25, 0, .low, ["any".toList], true, "fitness".toList⟩

/-- The requirement profile of "cycling" from the catalog. -/
def cyclingReq : ActivityReq :=
  ⟨(15, 30), 20, 0, .moderate, ["daylight".toList], true, "fitness".toList⟩

/-- The requirement profile of "walking" from the catalog. -/
def walkingReq : ActivityReq :=
  ⟨(10, 35), 30, 10, .any, ["any".toList], true, "leisure".toList⟩

/-- The requirement profile of "picnic" from the catalog. -/
def picnicReq : ActivityReq :=
  ⟨(20, 30), 15, 0, .low, ["daylight".toList], true, "leisure".toList⟩

/-- The requirement profile of "shopping" from the catalog. -/
def shoppingReq : ActivityReq :=
  ⟨(-10, 45), 100, 100, .any, ["any".toList], false, "indoor".toList⟩

/-- The activity catalog `ACTIVITIES` (main.py lines 45-109), in definition
order. -/
def ACTIVITIES : List (List Char × ActivityReq) :=
  [("cricket".toList, cricketReq), ("football".toList, footballReq),
   ("running".toList, runningReq), ("cycling".toList, cyclingReq),
   ("walking".toList, walkingReq), ("picnic".toList, picnicReq),
   ("shopping".toList, shoppingReq)]

/-- One per-factor assessment produced by the scorer.  The source stores the
raw metric interpolated into a display string (for example `f"{temp}°C"`); we
keep the raw numeric value, which carries the same information without
committing to Python float formatting. -/
structure Factor where
  factor : List Char
  value : ℚ
  impact : Rating
  score : ℚ
deriving DecidableEq

/-- The scorer's structured verdict (the dict returned at main.py
lines 306-313). -/
structure Verdict where
  suitable : Bool
  recommendation : Rating
  confidence : ℚ
  factors : List Factor
  overall_score : ℚ
  weather_description : List Char
deriving DecidableEq

/-- The tier mapping of main.py line 304:
`"excellent" if overall_score >= 85 else "good" if overall_score >= 70 else
"moderate" if overall_score >= 50 else "poor"`. -/
def recommendationOfScore (s : ℚ) : Rating :=
  if 85 ≤ s then .excellent
  else if 70 ≤ s then .good
  else if 50 ≤ s then .moderate
  else .poor

/-- The scoring core of `analyze_activity_suitability` (main.py lines
263-313), applied after the weather metrics have been extracted from the
provider payload.  Each factor is paired with the penalty it contributes to
`overall_score`; the source applies the same penalties by successive
`overall_score -= ...` statements. -/
def suitability_verdict (req : ActivityReq) (temp humidity wind_speed precipitation : ℚ)
    (weather_desc : List Char) : Verdict :=
  let tempFactor : Factor × ℚ :=
    if req.optimal_temp.1 ≤ temp ∧ temp ≤ req.optimal_temp.2 then
      (⟨"temperature".toList, temp, .excellent, 100⟩, 0)
    else if temp < req.optimal_temp.1 - 5 ∨ req.optimal_temp.2 + 5 < temp then
      (⟨"temperature".toList, temp, .poor, 30⟩, 40)
    else
      (⟨"temperature".toList, temp, .moderate, 70⟩, 15)
  let windFactor : Factor × ℚ :=
    if wind_speed ≤ req.max_wind then
      (⟨"wind".toList, wind_speed, .good, 90⟩, 0)
    else
      (⟨"wind".toList, wind_speed, .poor, 40⟩, 25)
  let precFactor : Factor × ℚ :=
    if precipitation ≤ req.precipitation_tolerance then
      (⟨"precipitation".toList, precipitation, .excellent, 100⟩, 0)
    else
      (⟨"precipitation".toList, precipitation, .poor, 20⟩, 50)
  let humFactor : Factor × ℚ :=
    if req.humidity_preference = HumidityPref.low ∧ 70 < humidity then
      (⟨"humidity".toList, humidity, .moderate, 70⟩, 10)
    else if req.humidity_preference = HumidityPref.moderate ∧ (80 < humidity ∨ humidity < 30) then
      (⟨"humidity".toList, humidity, .moderate, 70⟩, 10)
    else
      (⟨"humidity".toList, humidity, .good, 85⟩, 0)
  let overall : ℚ := 100 - tempFactor.2 - windFactor.2 - precFactor.2 - humFactor.2
  { suitable := decide (50 ≤ overall)
    recommendation := recommendationOfScore overall
    confidence := min overall 100
    factors := [tempFactor.1, windFactor.1, precFactor.1, humFactor.1]
    overall_score := overall
    weather_description := weather_desc }

/-- Rank of a recommendation tier on the order poor < moderate < good <
excellent, used to compare tiers. -/
def tierRank : Rating → ℕ
  | .poor => 0
  | .moderate => 1
  | .good => 2
  | .excellent => 3

/-- Claim-side temperature penalty: nothing inside the optimal range, 40 more
than 5°C outside it, 15 in the buffer zone. -/
def specTempPenalty (req : ActivityReq) (temp : ℚ) : ℚ :=
  if req.optimal_temp.1 ≤ temp ∧ temp ≤ req.optimal_temp.2 then 0
  else if temp < req.optimal_temp.1 - 5 ∨ req.optimal_temp.2 + 5 < temp then 40
  else 15

/-- Claim-side temperature factor: impact excellent sub-score 100 inside the
range, poor 30 far outside, moderate 70 in the buffer. -/
def specTempFactor (req : ActivityReq) (temp : ℚ) : Factor :=
  if req.optimal_temp.1 ≤ temp ∧ temp ≤ req.optimal_temp.2 then
    ⟨"temperature".toList, temp, .excellent, 100⟩
  else if temp < req.optimal_temp.1 - 5 ∨ req.optimal_temp.2 + 5 < temp then
    ⟨"temperature".toList, temp, .poor, 30⟩
  else ⟨"temperature".toList, temp, .moderate, 70⟩

/-- Claim-side wind penalty: 25 exactly when wind_speed exceeds max_wind. -/
def specWindPenalty (req : ActivityReq) (wind_speed : ℚ) : ℚ :=
  if req.max_wind < wind_speed then 25 else 0

/-- Claim-side wind factor: sub-score 40 poor over the limit, otherwise 90
good. -/
def specWindFactor (req : ActivityReq) (wind_speed : ℚ) : Factor :=
  if req.max_wind < wind_speed then ⟨"wind".toList, wind_speed, .poor, 40⟩
  else ⟨"wind".toList, wind_speed, .good, 90⟩

/-- Claim-side precipitation penalty: 50 exactly when precipitation exceeds
the tolerance. -/
def specPrecipPenalty (req : ActivityReq) (precipitation : ℚ) : ℚ :=
  if req.precipitation_tolerance < precipitation then 50 else 0

/-- Claim-side precipitation factor: sub-score 20 poor over the tolerance,
otherwise 100 excellent. -/
def specPrecipFactor (req : ActivityReq) (precipitation : ℚ) : Factor :=
  if req.precipitation_tolerance < precipitation then
    ⟨"precipitation".toList, precipitation, .poor, 20⟩
  else ⟨"precipitation".toList, precipitation, .excellent, 100⟩

/-- Claim-side humidity penalty condition: preference low with humidity
above 70, or preference moderate with humidity above 80 or below 30. -/
def specHumidityPenalized (req : ActivityReq) (humidity : ℚ) : Prop :=
  (req.humidity_preference = HumidityPref.low ∧ 70 < humidity) ∨
    (req.humidity_preference = HumidityPref.moderate ∧ (80 < humidity ∨ humidity < 30))

instance (req : ActivityReq) (humidity : ℚ) : Decidable (specHumidityPenalized req humidity) := by
  unfold specHumidityPenalized; infer_instance

/-- Claim-side humidity penalty: 10 exactly under `specHumidityPenalized`. -/
def specHumidityPenalty (req : ActivityReq) (humidity : ℚ) : ℚ :=
  if specHumidityPenalized req humidity then 10 else 0

/-- Claim-side humidity factor: moderate 70 when penalized, otherwise
good 85. -/
def specHumidityFactor (req : ActivityReq) (humidity : ℚ) : Factor :=
  if specHumidityPenalized req humidity then ⟨"humidity".toList, humidity, .moderate, 70⟩
  else ⟨"humidity".toList, humidity, .good, 85⟩

/-- The five query types of `QUERY_TYPES` (main.py lines 112-118). -/
inductive QueryType where
  | BASIC_WEATHER
  | ACTIVITY_PLANNING
  | CLOTHING_ADVICE
  | TRAVEL_PLANNING
  | COMFORT_ASSESSMENT
deriving DecidableEq

/-- Python `str.lower()` on our character-list strings. -/
def lowerChars (s : List Char) : List Char := s.map Char.toLower

/-- The `QUERY_TYPES` keyword table (main.py lines 112-118), in definition
order. -/
def QUERY_TYPES : List (QueryType × List (List Char)) :=
  [(.BASIC_WEATHER,
      ["weather", "temperature", "temp", "hot", "cold", "raining", "sunny"].map String.toList),
   (.ACTIVITY_PLANNING,
      ["play", "go", "do", "can i", "should i", "good for", "suitable"].map String.toList),
   (.CLOTHING_ADVICE, ["wear", "dress", "clothing", "clothes", "outfit"].map String.toList),
   (.TRAVEL_PLANNING, ["visit", "travel", "trip", "vacation", "holiday"].map String.toList),
   (.COMFORT_ASSESSMENT,
      ["comfortable", "pleasant", "nice", "good weather", "bad weather"].map String.toList)]

/-- Keyword list of one query type, as `QUERY_TYPES[key]` in the source. -/
def keywordsFor (q : QueryType) : List (List Char) :=
  match QUERY_TYPES.find? (fun p => p.1 == q) with
  | some p => p.2
  | none => []

/-- Python's `in` on strings: `pat` occurs as a contiguous substring of
`s`. -/
def isSubstr (pat : List Char) : List Char → Bool
  | [] => pat.isEmpty
  | s@(_ :: t) => pat.isPrefixOf s || isSubstr pat t

/-- Python `any(keyword in message_lower for keyword in ...)`: case-sensitive
substring containment of any keyword (the message is lowercased by the
caller, keywords are stored lowercase). -/
def containsKeyword (ks : List (List Char)) (m : List Char) : Bool :=
  ks.any (fun k => isSubstr k m)

/-- The function `classify_query_intent` (main.py lines 192-206): the source checks
ACTIVITY_PLANNING, then CLOTHING_ADVICE, TRAVEL_PLANNING and
COMFORT_ASSESSMENT, and defaults to BASIC_WEATHER; the BASIC_WEATHER
keyword list itself is never consulted. -/
def classify_query_intent (message : List Char) : QueryType :=
  let ml := lowerChars message
  if containsKeyword (keywordsFor .ACTIVITY_PLANNING) ml then .ACTIVITY_PLANNING
  else if containsKeyword (keywordsFor .CLOTHING_ADVICE) ml then .CLOTHING_ADVICE
  else if containsKeyword (keywordsFor .TRAVEL_PLANNING) ml then .TRAVEL_PLANNING
  else if containsKeyword (keywordsFor .COMFORT_ASSESSMENT) ml then .COMFORT_ASSESSMENT
  else .BASIC_WEATHER

/-- First query type in a table whose keyword set matches the (already
lowercased) message; BASIC_WEATHER when none matches. -/
def firstMatchingType : List (QueryType × List (List Char)) → List Char → QueryType
  | [], _ => .BASIC_WEATHER
  | (q, ks) :: rest, ml => if containsKeyword ks ml then q else firstMatchingType rest ml

/-- The classifier exactly as the claim words it: first matching category in
the listed order BASIC_WEATHER, ACTIVITY_PLANNING, CLOTHING_ADVICE,
TRAVEL_PLANNING, COMFORT_ASSESSMENT, defaulting to BASIC_WEATHER. -/
def classify_intent_claimed (message : List Char) : QueryType :=
  firstMatchingType QUERY_TYPES (lowerChars message)

/-- The classifier with the order the source actually uses: BASIC_WEATHER's
keyword list is skipped, the other four categories are checked in table
order, and BASIC_WEATHER is only the default. -/
def classify_intent_amended (message : List Char) : QueryType :=
  firstMatchingType (QUERY_TYPES.drop 1) (lowerChars message)

/-- A JSON-like value, modelling the provider payloads the Python code
indexes into; objects are association lists with first-match lookup,
numbers are exact rationals. -/
inductive J where
  | num (q : ℚ)
  | str (s : List Char)
  | obj (fields : List (List Char × J))
  | arr (items : List J)

/-- First-match association-list lookup, modelling Python dict indexing. -/
def lookupField (fields : List (List Char × J)) (k : List Char) : Option J :=
  match fields.find? (fun p => p.1 == k) with
  | some p => some p.2
  | none => none

/-- Dict indexing `j[k]`: `none` models the `KeyError`/`TypeError` the
Python code would raise on a missing key or a non-dict value. -/
def J.lookup : J → List Char → Option J
  | .obj fields, k => lookupField fields k
  | _, _ => none

/-- Reading a JSON value as a number; `none` models the `TypeError` a later
numeric comparison would raise on a non-number. -/
def J.asNum : J → Option ℚ
  | .num q => some q
  | _ => none

/-- Reading a JSON value as a string. -/
def J.asStr : J → Option (List Char)
  | .str s => some s
  | _ => none

/-- Python `d.get("1h", 0)` as used at main.py lines 257 and 259, followed
by the numeric use of the result: a missing "1h" key yields 0, a non-dict
receiver or a non-numeric value models a raised exception. -/
def get1hOrZero : J → Option ℚ
  | .obj fields =>
    match lookupField fields "1h".toList with
    | some v => v.asNum
    | none => some 0
  | _ => none

/-- Wind-speed extraction (main.py line 254):
`current["wind"]["speed"] if "wind" in current else 0`. -/
def windSpeedOf (current : J) : Option ℚ :=
  match current.lookup "wind".toList with
  | some w => (w.lookup "speed".toList).bind J.asNum
  | none => some 0

/-- Precipitation extraction (main.py lines 255-259): the "rain" object is
consulted first, else the "snow" object, else 0. -/
def precipitationOf (current : J) : Option ℚ :=
  match current.lookup "rain".toList with
  | some r => get1hOrZero r
  | none =>
    match current.lookup "snow".toList with
    | some s => get1hOrZero s
    | none => some 0

/-- Description extraction (main.py line 261):
`current["weather"][0]["description"]`. -/
def weatherDescOf (current : J) : Option (List Char) :=
  match current.lookup "weather".toList with
  | some (.arr (x :: _)) => (x.lookup "description".toList).bind J.asStr
  | _ => none

/-- Metric extraction of `analyze_activity_suitability` (main.py lines
249-261): temperature, humidity, wind speed (0 when "wind" is absent),
precipitation (rain first, else snow, else 0) and the weather description.
`none` models an uncaught exception. -/
def extract_metrics (current : J) : Option (ℚ × ℚ × ℚ × ℚ × List Char) :=
  (current.lookup "main".toList).bind fun mainObj =>
  ((mainObj.lookup "temp".toList).bind J.asNum).bind fun temp =>
  ((mainObj.lookup "humidity".toList).bind J.asNum).bind fun humidity =>
  (windSpeedOf current).bind fun wind_speed =>
  (precipitationOf current).bind fun precipitation =>
  (weatherDescOf current).bind fun weather_desc =>
  some (temp, humidity, wind_speed, precipitation, weather_desc)

/-- Result of `analyze_activity_suitability`: either the early
"Activity not recognized" dict (main.py line 246) or a full verdict. -/
inductive AnalysisResult where
  | notRecognized (suitable : Bool) (reason : List Char)
  | verdict (v : Verdict)
deriving DecidableEq

/-- The function `analyze_activity_suitability` (main.py lines 243-313).  The
`time_context` argument is accepted and ignored, exactly as in the source.
`none` models an uncaught exception while indexing the payload. -/
def analyze_activity_suitability (weather_data : J) (activity : List Char)
    (time_context : List Char) : Option AnalysisResult :=
  match ACTIVITIES.find? (fun p => p.1 == activity) with
  | none => some (.notRecognized false "Activity not recognized".toList)
  | some entry =>
    let _ := time_context
    (weather_data.lookup "current".toList).bind fun current =>
    (extract_metrics current).bind fun m =>
    some (.verdict (suitability_verdict entry.2 m.1 m.2.1 m.2.2.1 m.2.2.2.1 m.2.2.2.2))

/-- The claim's condition under which the scorer must default precipitation
to 0: neither "rain" nor "snow" present, or the consulted one present as an
object without a "1h" sub-key. -/
def precipDefaultsToZero (current : J) : Bool :=
  match current.lookup "rain".toList, current.lookup "snow".toList with
  | none, none => true
  | some (.obj r), _ => (lookupField r "1h".toList).isNone
  | none, some (.obj s) => (lookupField s "1h".toList).isNone
  | _, _ => false

/-- The `COMMON_CITIES` gazetteer (main.py lines 121-137), in source
order. -/
def COMMON_CITIES : List (List Char) :=
  ["Tokyo", "New York", "London", "Paris", "Sydney", "Berlin", "Rome", "Moscow",
   "Beijing", "Shanghai", "Delhi", "Mumbai", "Cairo", "Rio", "Toronto", "Chicago",
   "Los Angeles", "San Francisco", "Miami", "Seattle", "Boston", "Dubai", "Singapore",
   "Bangkok", "Hong Kong", "Seoul", "Amsterdam", "Madrid", "Barcelona", "Mexico City",
   "Stockholm", "Oslo", "Copenhagen", "Helsinki", "Vienna", "Prague", "Budapest",
   "Warsaw", "Athens", "Istanbul", "Jerusalem", "Nairobi", "Cape Town", "Marrakech",
   "Dublin", "Edinburgh", "Glasgow", "Manchester", "Liverpool", "Birmingham", "Brussels",
   "Zurich", "Geneva", "Milan", "Florence", "Naples", "Venice", "Munich", "Frankfurt",
   "Hamburg", "Cologne", "Dusseldorf", "Lisbon", "Porto", "Sao Paulo", "Buenos Aires",
   "Lima", "Santiago", "Bogota", "Caracas", "Panama City", "Havana", "Montreal",
   "Vancouver", "Calgary", "Ottawa", "Melbourne", "Brisbane", "Perth", "Auckland",
   "Wellington", "Jakarta", "Manila", "Kuala Lumpur", "Hanoi", "Ho Chi Minh City",
   "Taipei", "Kyoto", "Osaka", "Sapporo", "Yokohama", "Hiroshima", "St Petersburg",
   "Vladivostok", "Kiev", "Tehran", "Baghdad", "Riyadh", "Mecca", "Muscat", "Doha",
   "Abu Dhabi", "Casablanca", "Surat", "Ahmedabad", "Pune", "Kolkata", "Chennai",
   "Bangalore", "Hyderabad", "Jaipur"].map String.toList

/-- Punctuation characters stripped from a captured city name. -/
def PUNCT : List Char := ['.', ',', '!', '?', ';', ':']

/-- Drop trailing punctuation from a captured candidate. -/
def stripTrailingPunct (s : List Char) : List Char :=
  ((s.reverse).dropWhile (fun c => PUNCT.contains c)).reverse

/-- Split a character list on a separator character (no empty groups are
produced for a string without doubled separators). -/
def splitOnChar (sep : Char) (s : List Char) : List (List Char) :=
  s.foldr
    (fun ch acc =>
      match acc with
      | w :: rest => if ch == sep then [] :: w :: rest else (ch :: w) :: rest
      | [] => [[ch]])
    [[]]

/-- Capitalize the first character of one word. -/
def capitalizeWord : List Char → List Char
  | [] => []
  | c :: cs => c.toUpper :: cs

/-- Join words with single spaces. -/
def joinWithSpace : List (List Char) → List Char
  | [] => []
  | [w] => w
  | w :: ws => w ++ ' ' :: joinWithSpace ws

/-- Title-case a (lowercased) phrase word by word. -/
def titleCaseChars (s : List Char) : List Char :=
  joinWithSpace ((splitOnChar ' ' s).map capitalizeWord)

/-- The suffix of `s` after the first occurrence of `pat`, or `none` when
`pat` does not occur. -/
def afterInfix (pat : List Char) : List Char → Option (List Char)
  | [] => if pat.isEmpty then some [] else none
  | s@(_ :: t) => if pat.isPrefixOf s then some (s.drop pat.length) else afterInfix pat t

/-- Modelled from the spec: the closed stop-word set of spec §4.1 step 5
(the spec lists "tomorrow, cycling, what, about, when, how, where, can,
should, …"); candidate city strings colliding with it are rejected. -/
def STOP_WORDS : List (List Char) :=
  ["tomorrow", "cycling", "what", "about", "when", "how", "where", "can",
   "should"].map String.toList

/-- Extraction confidence 0.8 of the regex trigger-phrase path, written as
the reduced fraction 4/5 so that kernel evaluation never has to normalize. -/
def confRegex : ℚ := ⟨4, 5, by norm_num, by norm_num⟩

/-- Extraction confidence 0.7 of the gazetteer path (7/10). -/
def confGazetteer : ℚ := ⟨7, 10, by norm_num, by norm_num⟩

/-- Extraction confidence 0.5 of the short-message fallback (1/2). -/
def confShort : ℚ := ⟨1, 2, by norm_num, by norm_num⟩

/-- Modelled from the spec: gazetteer and fallback city detection, spec §4.1
steps 2(b)-2(d).  This and `extract_city_spec` model the full Extractor with
confidence signal described by the spec; the rewrite kept under
`src/backend/app/main.py` (`extract_city_and_activity`) only contains the
gazetteer lookup and returns no confidence. -/
def extract_city_fallback (message : List Char) : List Char × ℚ :=
  let ml := lowerChars message
  match COMMON_CITIES.find? (fun c => isSubstr (lowerChars c) ml) with
  | some c => (c, confGazetteer)
  | none =>
    if (splitOnChar ' ' ml).length ≤ 2 then (titleCaseChars ml, confShort)
    else ("unknown".toList, 0)

/-- Modelled from the spec: city detection of spec §4.1 step 2, in priority
order — (a) the regex trigger phrase "weather in X" capturing the trailing
run of words with trailing punctuation stripped, rejected when it collides
with the stop-word set, title-cased, confidence 0.8; then (b)-(d) via
`extract_city_fallback`. -/
def extract_city_spec (message : List Char) : List Char × ℚ :=
  let ml := lowerChars message
  match afterInfix "weather in ".toList ml with
  | some rest =>
    let cand := stripTrailingPunct rest
    if cand ≠ [] ∧ ¬ STOP_WORDS.contains cand then (titleCaseChars cand, confRegex)
    else extract_city_fallback message
  | none => extract_city_fallback message

/-- The session state of spec §3 / §4.4: last known city, conversation
counter, bounded recent history, language tag. -/
structure SessionState where
  last_city : Option (List Char)
  conversation_count : ℕ
  recent_history : List (List Char)
  language : List Char
deriving DecidableEq

/-- Operation `append_history(message, cap=5)`: keep at most the last 5 entries. -/
def append_history (s : SessionState) (message : List Char) : SessionState :=
  let h := s.recent_history ++ [message]
  { s with recent_history := h.drop (h.length - 5) }

/-- Modelled from the spec: the static multilingual greeting / thanks /
farewell phrase list of spec §4.4 (no such list exists in the rewrite kept
under src/). -/
def GREETING_PHRASES : List (List Char) :=
  ["hello", "hi", "hey", "good morning", "good evening", "thanks", "thank you",
   "thx", "bye", "goodbye", "see you", "hola", "gracias", "bonjour", "merci",
   "hallo", "danke", "ciao", "namaste"].map String.toList

/-- Trim leading and trailing spaces. -/
def trimSpaces (s : List Char) : List Char :=
  ((s.dropWhile (fun c => c == ' ')).reverse.dropWhile (fun c => c == ' ')).reverse

/-- Modelled from the spec: a turn is a pure greeting/thanks/farewell when
its lowercased, punctuation-free, trimmed text is in the static phrase
list. -/
def isPureGreeting (message : List Char) : Bool :=
  GREETING_PHRASES.contains (trimSpaces ((lowerChars message).filter (fun c => ¬ PUNCT.contains c)))

/-- Canned acknowledgment text returned for a pure greeting turn. -/
def ackText : List Char :=
  "Happy to help! Ask me about the weather anytime.".toList

/-- Response of one message-processing turn: a canned acknowledgment, a
weather reply for a resolved city, or a request to clarify the city. -/
inductive TurnResponse where
  | acknowledgment (text : List Char)
  | weatherReply (city : List Char)
  | clarifyCity
deriving DecidableEq

/-- Modelled from the spec: one message-processing turn over the session
state (spec §4.4, absent from the rewrite kept under src/).  A pure
greeting turn returns the canned acknowledgment, leaves the remembered city
untouched and skips the weather pipeline; any other turn runs extraction,
remembers a newly resolved city, or falls back to the remembered one.  The
Bool reports whether a weather lookup was performed. -/
def process_turn (s : SessionState) (message : List Char) :
    TurnResponse × SessionState × Bool :=
  let s1 := append_history { s with conversation_count := s.conversation_count + 1 } message
  if isPureGreeting message then (.acknowledgment ackText, s1, false)
  else
    let (city, _) := extract_city_spec message
    if city ≠ "unknown".toList then (.weatherReply city, { s1 with last_city := some city }, true)
    else
      match s1.last_city with
      | some c => (.weatherReply c, s1, true)
      | none => (.clarifyCity, s1, false)

/-- A provider response to the current-weather request, as distinguished by
`FixedWeatherTools.get_current_weather` (weather_tools_fixed.py lines
41-71): HTTP 404, a successful JSON payload, or an HTTP error. -/
inductive ProviderResponse where
  | notFound
  | ok (data : J)
  | httpError (message : List Char)

/-- The apostrophe character. -/
def apos : Char := Char.ofNat 39

/-- The user-facing message of weather_tools_fixed.py lines 44-45:
`Sorry, I couldn't find weather data for <location>. Please check the city
name and try again.` with the location quoted. -/
def notFoundMessage (location : List Char) : List Char :=
  "Sorry, I couldn".toList ++ [apos] ++ "t find weather data for ".toList ++ [apos] ++
    location ++ [apos] ++ ". Please check the city name and try again.".toList

/-- Python's `round` on an exact rational: round half to even. -/
def pyRound (q : ℚ) : ℤ :=
  let f := ⌊q⌋
  let r := q - f
  if r < 1 / 2 then f
  else if 1 / 2 < r then f + 1
  else if f % 2 = 0 then f else f + 1

/-- Decimal digits of a natural number. -/
def natChars (n : ℕ) : List Char := Nat.toDigits 10 n

/-- Decimal rendering of an integer. -/
def intChars (i : ℤ) : List Char :=
  if i < 0 then '-' :: natChars i.natAbs else natChars i.toNat

/-- Rendering of an exact rational for interpolation into a reply (an
integer prints as an integer, anything else as a fraction); this stands in
for Python float formatting, which has no exact counterpart here. -/
def ratChars (q : ℚ) : List Char :=
  if q.den = 1 then intChars q.num else intChars q.num ++ '/' :: natChars q.den

/-- String field at a key of a JSON object. -/
def getStrAt (j : J) (k : List Char) : Option (List Char) := (j.lookup k).bind J.asStr

/-- Numeric field at a key of a JSON object. -/
def getNumAt (j : J) (k : List Char) : Option ℚ := (j.lookup k).bind J.asNum

/-- Indexing `data["weather"][0]["description"]`. -/
def firstWeatherDesc (data : J) : Option (List Char) :=
  match data.lookup "weather".toList with
  | some (.arr (x :: _)) => getStrAt x "description".toList
  | _ => none

/-- Assembly of the reply string of weather_tools_fixed.py lines 60-64 from
the extracted fields (temperatures rounded, description title-cased). -/
def renderCurrent (city country description : List Char)
    (temp feels_like humidity wind_speed : ℚ) : List Char :=
  "📍 ".toList ++ city ++ ", ".toList ++ country ++ "\n".toList ++
    "🌡️ ".toList ++ intChars (pyRound temp) ++ "°C (feels like ".toList ++
    intChars (pyRound feels_like) ++ "°C)\n".toList ++
    "☁️ ".toList ++ titleCaseChars description ++ "\n".toList ++
    "💧 Humidity: ".toList ++ ratChars humidity ++ "%\n".toList ++
    "💨 Wind: ".toList ++ ratChars wind_speed ++ " m/s".toList

/-- The successful-response formatting of
`FixedWeatherTools.get_current_weather` (weather_tools_fixed.py lines
50-66); `none` models an exception while indexing the payload, which the
source maps to its generic unexpected-error string. -/
def formatCurrent (data : J) : Option (List Char) :=
  (getStrAt data "name".toList).bind fun city =>
  ((data.lookup "sys".toList).bind fun sys => getStrAt sys "country".toList).bind fun country =>
  (firstWeatherDesc data).bind fun description =>
  (data.lookup "main".toList).bind fun mainObj =>
  (getNumAt mainObj "temp".toList).bind fun temp =>
  (getNumAt mainObj "feels_like".toList).bind fun feels_like =>
  (getNumAt mainObj "humidity".toList).bind fun humidity =>
  ((data.lookup "wind".toList).bind fun w => getNumAt w "speed".toList).bind fun wind_speed =>
  some (renderCurrent city country description temp feels_like humidity wind_speed)

/-- The method `FixedWeatherTools.get_current_weather` (weather_tools_fixed.py lines
23-71) over an abstract provider response: a total function — every branch,
including HTTP 404 and any malformed payload, returns a user-facing
string. -/
def get_current_weather (location : List Char) (resp : ProviderResponse) : List Char :=
  match resp with
  | .notFound => notFoundMessage location
  | .httpError e => "Error fetching weather data: ".toList ++ e
  | .ok data =>
    match formatCurrent data with
    | some out => out
    | none => "Unexpected error getting weather for ".toList ++ location

/-- A sample "main" sub-object used as the concrete witness payload for the
totality theorem. -/
def sampleMain : J :=
  J.obj [("temp".toList, J.num 22), ("humidity".toList, J.num 50)]

/-- A sample current-weather payload with no "wind", "rain" or "snow"
keys. -/
def sampleCurrent : J :=
  J.obj [("main".toList, sampleMain),
    ("weather".toList, J.arr [J.obj [("description".toList, J.str "clear sky".toList)]])]

lemma tempPenaltyIf (req : ActivityReq) (t : ℚ) :
    (if req.optimal_temp.1 ≤ t ∧ t ≤ req.optimal_temp.2 then (0 : ℚ)
      else if t < req.optimal_temp.1 - 5 ∨ req.optimal_temp.2 + 5 < t then 40 else 15) =
      specTempPenalty req t := rfl

lemma windPenaltyIf (req : ActivityReq) (w : ℚ) :
    (if w ≤ req.max_wind then (0 : ℚ) else 25) = specWindPenalty req w := by
  unfold specWindPenalty
  rcases le_or_lt w req.max_wind with h | h
  · rw [if_pos h, if_neg (not_lt.mpr h)]
  · rw [if_neg (not_le.mpr h), if_pos h]

lemma precipPenaltyIf (req : ActivityReq) (p : ℚ) :
    (if p ≤ req.precipitation_tolerance then (0 : ℚ) else 50) = specPrecipPenalty req p := by
  unfold specPrecipPenalty
  rcases le_or_lt p req.precipitation_tolerance with h | h
  · rw [if_pos h, if_neg (not_lt.mpr h)]
  · rw [if_neg (not_le.mpr h), if_pos h]

lemma humPenaltyIf (req : ActivityReq) (h : ℚ) :
    (if req.humidity_preference = HumidityPref.low ∧ 70 < h then (10 : ℚ)
      else if req.humidity_preference = HumidityPref.moderate ∧ (80 < h ∨ h < 30) then 10
      else 0) = specHumidityPenalty req h := by
  unfold specHumidityPenalty specHumidityPenalized
  by_cases h1 : req.humidity_preference = HumidityPref.low ∧ 70 < h
  · rw [if_pos h1, if_pos (Or.inl h1)]
  · rw [if_neg h1]
    by_cases h2 : req.humidity_preference = HumidityPref.moderate ∧ (80 < h ∨ h < 30)
    · rw [if_pos h2, if_pos (Or.inr h2)]
    · rw [if_neg h2, if_neg ?h3]
      rintro (hh | hh)
      · exact h1 hh
      · exact h2 hh

lemma overall_score_eq (req : ActivityReq) (t h w p : ℚ) (d : List Char) :
    (suitability_verdict req t h w p d).overall_score =
      100 - specTempPenalty req t - specWindPenalty req w - specPrecipPenalty req p -
        specHumidityPenalty req h := by
  simp only [suitability_verdict, apply_ite Prod.snd]
  rw [tempPenaltyIf, windPenaltyIf, precipPenaltyIf, humPenaltyIf]


lemma tempFactorIf (req : ActivityReq) (t : ℚ) :
    (if req.optimal_temp.1 ≤ t ∧ t ≤ req.optimal_temp.2 then
        (⟨"temperature".toList, t, .excellent, 100⟩ : Factor)
      else if t < req.optimal_temp.1 - 5 ∨ req.optimal_temp.2 + 5 < t then
        ⟨"temperature".toList, t, .poor, 30⟩
      else ⟨"temperature".toList, t, .moderate, 70⟩) = specTempFactor req t := rfl

lemma windFactorIf (req : ActivityReq) (w : ℚ) :
    (if w ≤ req.max_wind then (⟨"wind".toList, w, .good, 90⟩ : Factor)
      else ⟨"wind".toList, w, .poor, 40⟩) = specWindFactor req w := by
  unfold specWindFactor
  rcases le_or_lt w req.max_wind with h | h
  · rw [if_pos h, if_neg (not_lt.mpr h)]
  · rw [if_neg (not_le.mpr h), if_pos h]

lemma precipFactorIf (req : ActivityReq) (p : ℚ) :
    (if p ≤ req.precipitation_tolerance then
        (⟨"precipitation".toList, p, .excellent, 100⟩ : Factor)
      else ⟨"precipitation".toList, p, .poor, 20⟩) = specPrecipFactor req p := by
  unfold specPrecipFactor
  rcases le_or_lt p req.precipitation_tolerance with h | h
  · rw [if_pos h, if_neg (not_lt.mpr h)]
  · rw [if_neg (not_le.mpr h), if_pos h]

lemma humFactorIf (req : ActivityReq) (h : ℚ) :
    (if req.humidity_preference = HumidityPref.low ∧ 70 < h then
        (⟨"humidity".toList, h, .moderate, 70⟩ : Factor)
      else if req.humidity_preference = HumidityPref.moderate ∧ (80 < h ∨ h < 30) then
        ⟨"humidity".toList, h, .moderate, 70⟩
      else ⟨"humidity".toList, h, .good, 85⟩) = specHumidityFactor req h := by
  unfold specHumidityFactor specHumidityPenalized
  by_cases h1 : req.humidity_preference = HumidityPref.low ∧ 70 < h
  · rw [if_pos h1, if_pos (Or.inl h1)]
  · rw [if_neg h1]
    by_cases h2 : req.humidity_preference = HumidityPref.moderate ∧ (80 < h ∨ h < 30)
    · rw [if_pos h2, if_pos (Or.inr h2)]
    · rw [if_neg h2, if_neg ?h3]
      rintro (hh | hh)
      · exact h1 hh
      · exact h2 hh

lemma factors_eq (req : ActivityReq) (t h w p : ℚ) (d : List Char) :
    (suitability_verdict req t h w p d).factors =
      [specTempFactor req t, specWindFactor req w, specPrecipFactor req p,
        specHumidityFactor req h] := by
  simp only [suitability_verdict, apply_ite Prod.fst]
  rw [tempFactorIf, windFactorIf, precipFactorIf, humFactorIf]

lemma recommendation_eq (req : ActivityReq) (t h w p : ℚ) (d : List Char) :
    (suitability_verdict req t h w p d).recommendation =
      recommendationOfScore ((suitability_verdict req t h w p d).overall_score) := rfl

lemma confidence_eq (req : ActivityReq) (t h w p : ℚ) (d : List Char) :
    (suitability_verdict req t h w p d).confidence =
      min ((suitability_verdict req t h w p d).overall_score) 100 := rfl

lemma suitable_eq (req : ActivityReq) (t h w p : ℚ) (d : List Char) :
    (suitability_verdict req t h w p d).suitable =
      decide (50 ≤ (suitability_verdict req t h w p d).overall_score) := rfl

lemma activities_bounds :
    ∀ q ∈ ACTIVITIES, q.2.optimal_temp.1 ≤ q.2.optimal_temp.2 ∧ 0 ≤ q.2.max_wind ∧
      0 ≤ q.2.precipitation_tolerance := by decide

lemma recOfScore_cases (s : ℚ) :
    (85 ≤ s → recommendationOfScore s = .excellent) ∧
    (70 ≤ s ∧ s < 85 → recommendationOfScore s = .good) ∧
    (50 ≤ s ∧ s < 70 → recommendationOfScore s = .moderate) ∧
    (s < 50 → recommendationOfScore s = .poor) := by
  unfold recommendationOfScore
  refine ⟨fun h => ?_, fun h => ?_, fun h => ?_, fun h => ?_⟩
  · rw [if_pos h]
  · rw [if_neg (by linarith [h.2]), if_pos h.1]
  · rw [if_neg (by linarith [h.2]), if_neg (by linarith [h.2]), if_pos h.1]
  · rw [if_neg (by linarith), if_neg (by linarith), if_neg (by linarith)]

lemma specPenalties_nonneg (req : ActivityReq) (t h w p : ℚ) :
    0 ≤ specTempPenalty req t ∧ 0 ≤ specWindPenalty req w ∧ 0 ≤ specPrecipPenalty req p ∧
      0 ≤ specHumidityPenalty req h := by
  unfold specTempPenalty specWindPenalty specPrecipPenalty specHumidityPenalty
  refine ⟨?_, ?_, ?_, ?_⟩ <;> split_ifs <;> norm_num

lemma overall_le_100 (req : ActivityReq) (t h w p : ℚ) (d : List Char) :
    (suitability_verdict req t h w p d).overall_score ≤ 100 := by
  rw [overall_score_eq]
  obtain ⟨h1, h2, h3, h4⟩ := specPenalties_nonneg req t h w p
  linarith

lemma recOfScore_drop (s : ℚ) (hle : s ≤ 100) :
    tierRank (recommendationOfScore (s - 50)) ≤ tierRank (recommendationOfScore s) ∧
    (50 ≤ s → tierRank (recommendationOfScore (s - 50)) < tierRank (recommendationOfScore s)) := by
  unfold recommendationOfScore
  split_ifs <;> refine ⟨?_, fun h50 => ?_⟩ <;> simp [tierRank] <;> linarith

lemma overall_shift (req : ActivityReq) (t h w p : ℚ) (d : List Char)
    (hp : req.precipitation_tolerance < p) (h0 : 0 ≤ req.precipitation_tolerance) :
    (suitability_verdict req t h w p d).overall_score =
      (suitability_verdict req t h w 0 d).overall_score - 50 := by
  rw [overall_score_eq, overall_score_eq]
  unfold specPrecipPenalty
  rw [if_pos hp, if_neg (not_lt.mpr h0)]
  ring



/-- C1: for every WeatherSnapshot and every activity in the catalog, the
scorer starts at 100 and applies exactly the claimed cumulative penalties
with the claimed per-factor impacts and sub-scores, with no clamping below
zero during the computation. -/
theorem scorer_penalties_and_factors (name : List Char) (req : ActivityReq)
    (_hmem : (name, req) ∈ ACTIVITIES) (t h w p : ℚ) (d : List Char) :
    (suitability_verdict req t h w p d).overall_score =
      100 - specTempPenalty req t - specWindPenalty req w - specPrecipPenalty req p -
        specHumidityPenalty req h ∧
    (suitability_verdict req t h w p d).factors =
      [specTempFactor req t, specWindFactor req w, specPrecipFactor req p,
        specHumidityFactor req h] :=
  ⟨overall_score_eq req t h w p d, factors_eq req t h w p d⟩

/-- Witness for C1 at the cricket profile and a concrete snapshot. -/
theorem scorer_penalties_and_factors_witness :
    ("cricket".toList, cricketReq) ∈ ACTIVITIES ∧
    ((suitability_verdict cricketReq 0 90 20 5 []).overall_score =
      100 - specTempPenalty cricketReq 0 - specWindPenalty cricketReq 20 -
        specPrecipPenalty cricketReq 5 - specHumidityPenalty cricketReq 90 ∧
    (suitability_verdict cricketReq 0 90 20 5 []).factors =
      [specTempFactor cricketReq 0, specWindFactor cricketReq 20,
        specPrecipFactor cricketReq 5, specHumidityFactor cricketReq 90]) :=
  ⟨by decide, scorer_penalties_and_factors "cricket".toList cricketReq (by decide) 0 90 20 5 []⟩

/-- C2: the recommendation tier is exactly the claimed thresholding of the
final overall score, and the suitable flag holds iff the score is at least
50. -/
theorem scorer_tier_mapping (name : List Char) (req : ActivityReq)
    (_hmem : (name, req) ∈ ACTIVITIES) (t h w p : ℚ) (d : List Char) :
    (85 ≤ (suitability_verdict req t h w p d).overall_score →
      (suitability_verdict req t h w p d).recommendation = .excellent) ∧
    (70 ≤ (suitability_verdict req t h w p d).overall_score ∧
        (suitability_verdict req t h w p d).overall_score < 85 →
      (suitability_verdict req t h w p d).recommendation = .good) ∧
    (50 ≤ (suitability_verdict req t h w p d).overall_score ∧
        (suitability_verdict req t h w p d).overall_score < 70 →
      (suitability_verdict req t h w p d).recommendation = .moderate) ∧
    ((suitability_verdict req t h w p d).overall_score < 50 →
      (suitability_verdict req t h w p d).recommendation = .poor) ∧
    ((suitability_verdict req t h w p d).suitable = true ↔
      50 ≤ (suitability_verdict req t h w p d).overall_score) := by
  obtain ⟨h1, h2, h3, h4⟩ := recOfScore_cases ((suitability_verdict req t h w p d).overall_score)
  rw [recommendation_eq]
  refine ⟨h1, h2, h3, h4, ?_⟩
  rw [suitable_eq]
  simp only [decide_eq_true_eq]

/-- Witness for C2 at the cricket profile and a concrete snapshot. -/
theorem scorer_tier_mapping_witness :
    ("cricket".toList, cricketReq) ∈ ACTIVITIES ∧
    ((85 ≤ (suitability_verdict cricketReq 25 50 0 0 []).overall_score →
      (suitability_verdict cricketReq 25 50 0 0 []).recommendation = .excellent) ∧
    (70 ≤ (suitability_verdict cricketReq 25 50 0 0 []).overall_score ∧
        (suitability_verdict cricketReq 25 50 0 0 []).overall_score < 85 →
      (suitability_verdict cricketReq 25 50 0 0 []).recommendation = .good) ∧
    (50 ≤ (suitability_verdict cricketReq 25 50 0 0 []).overall_score ∧
        (suitability_verdict cricketReq 25 50 0 0 []).overall_score < 70 →
      (suitability_verdict cricketReq 25 50 0 0 []).recommendation = .moderate) ∧
    ((suitability_verdict cricketReq 25 50 0 0 []).overall_score < 50 →
      (suitability_verdict cricketReq 25 50 0 0 []).recommendation = .poor) ∧
    ((suitability_verdict cricketReq 25 50 0 0 []).suitable = true ↔
      50 ≤ (suitability_verdict cricketReq 25 50 0 0 []).overall_score)) :=
  ⟨by decide, scorer_tier_mapping "cricket".toList cricketReq (by decide) 25 50 0 0 []⟩

/-- C3 counterexample: for cricket with temperature 0°C, humidity 90, wind
20 m/s and precipitation 5 mm the cumulative penalties yield overall score
−25, and the reported confidence is −25 < 0 — the claim that confidence is
clamped to [0, 100] fails on the code. -/
theorem confidence_negative_counterexample :
    ("cricket".toList, cricketReq) ∈ ACTIVITIES ∧
    (suitability_verdict cricketReq 0 90 20 5 []).overall_score = -25 ∧
    (suitability_verdict cricketReq 0 90 20 5 []).confidence = -25 ∧
    ¬ (0 ≤ (suitability_verdict cricketReq 0 90 20 5 []).confidence) := by
  have hov : (suitability_verdict cricketReq 0 90 20 5 []).overall_score = -25 := by
    rw [overall_score_eq]
    norm_num [specTempPenalty, specWindPenalty, specPrecipPenalty, specHumidityPenalty,
      specHumidityPenalized, cricketReq]
  refine ⟨by decide, hov, ?_, ?_⟩
  · rw [confidence_eq, hov]
    norm_num [min_def]
  · rw [confidence_eq, hov]
    norm_num [min_def]

/-- C3 amended: the confidence equals min(overall_score, 100) — clamped
above at 100 but not below at 0, so it is negative exactly when the
cumulative penalties drive the overall score negative. -/
theorem confidence_min_overall (name : List Char) (req : ActivityReq)
    (_hmem : (name, req) ∈ ACTIVITIES) (t h w p : ℚ) (d : List Char) :
    (suitability_verdict req t h w p d).confidence =
      min ((suitability_verdict req t h w p d).overall_score) 100 ∧
    (suitability_verdict req t h w p d).confidence ≤ 100 := by
  refine ⟨confidence_eq req t h w p d, ?_⟩
  rw [confidence_eq]
  exact min_le_right _ _

/-- Witness for the amended C3 at the cricket profile. -/
theorem confidence_min_overall_witness :
    ("cricket".toList, cricketReq) ∈ ACTIVITIES ∧
    ((suitability_verdict cricketReq 25 50 0 0 []).confidence =
      min ((suitability_verdict cricketReq 25 50 0 0 []).overall_score) 100 ∧
    (suitability_verdict cricketReq 25 50 0 0 []).confidence ≤ 100) :=
  ⟨by decide, confidence_min_overall "cricket".toList cricketReq (by decide) 25 50 0 0 []⟩

/-- C4 counterexample: for cricket with temperature 0°C, humidity 90 and
wind 20 m/s, the zero-precipitation verdict is already poor (score 25), and
precipitation 5 mm above the tolerance 0 leaves the tier at poor — not at
least one level lower. -/
theorem precip_drop_counterexample :
    ("cricket".toList, cricketReq) ∈ ACTIVITIES ∧
    cricketReq.precipitation_tolerance < 5 ∧
    (suitability_verdict cricketReq 0 90 20 5 []).recommendation = .poor ∧
    (suitability_verdict cricketReq 0 90 20 0 []).recommendation = .poor ∧
    ¬ (tierRank ((suitability_verdict cricketReq 0 90 20 5 []).recommendation) <
        tierRank ((suitability_verdict cricketReq 0 90 20 0 []).recommendation)) := by
  have hov5 : (suitability_verdict cricketReq 0 90 20 5 []).overall_score = -25 := by
    rw [overall_score_eq]
    norm_num [specTempPenalty, specWindPenalty, specPrecipPenalty, specHumidityPenalty,
      specHumidityPenalized, cricketReq]
  have hov0 : (suitability_verdict cricketReq 0 90 20 0 []).overall_score = 25 := by
    rw [overall_score_eq]
    norm_num [specTempPenalty, specWindPenalty, specPrecipPenalty, specHumidityPenalty,
      specHumidityPenalized, cricketReq]
  have hr5 : (suitability_verdict cricketReq 0 90 20 5 []).recommendation = .poor := by
    rw [recommendation_eq, hov5]
    exact (recOfScore_cases _).2.2.2 (by norm_num)
  have hr0 : (suitability_verdict cricketReq 0 90 20 0 []).recommendation = .poor := by
    rw [recommendation_eq, hov0]
    exact (recOfScore_cases _).2.2.2 (by norm_num)
  refine ⟨by decide, by norm_num [cricketReq], hr5, hr0, ?_⟩
  rw [hr5, hr0]
  simp [tierRank]

/-- C4 amended: when precipitation strictly exceeds the tolerance, the tier
never improves over the zero-precipitation verdict, and it drops by at
least one level whenever that verdict's tier is better than poor (score at
least 50); when the zero-precipitation verdict is already poor, both tiers
are poor. -/
theorem precip_over_tolerance_drops_tier (name : List Char) (req : ActivityReq)
    (hmem : (name, req) ∈ ACTIVITIES) (t h w p : ℚ) (d : List Char)
    (hp : req.precipitation_tolerance < p) :
    tierRank ((suitability_verdict req t h w p d).recommendation) ≤
      tierRank ((suitability_verdict req t h w 0 d).recommendation) ∧
    (50 ≤ (suitability_verdict req t h w 0 d).overall_score →
      tierRank ((suitability_verdict req t h w p d).recommendation) <
        tierRank ((suitability_verdict req t h w 0 d).recommendation)) := by
  have h0 : 0 ≤ req.precipitation_tolerance := (activities_bounds (name, req) hmem).2.2
  have hs := overall_shift req t h w p d hp h0
  rw [recommendation_eq, recommendation_eq, hs]
  exact recOfScore_drop _ (overall_le_100 req t h w 0 d)

/-- Witness for the amended C4: cricket, perfect conditions except
precipitation 1 mm over the zero tolerance. -/
theorem precip_over_tolerance_drops_tier_witness :
    ("cricket".toList, cricketReq) ∈ ACTIVITIES ∧ cricketReq.precipitation_tolerance < 1 ∧
    (tierRank ((suitability_verdict cricketReq 25 50 0 1 []).recommendation) ≤
      tierRank ((suitability_verdict cricketReq 25 50 0 0 []).recommendation) ∧
    (50 ≤ (suitability_verdict cricketReq 25 50 0 0 []).overall_score →
      tierRank ((suitability_verdict cricketReq 25 50 0 1 []).recommendation) <
        tierRank ((suitability_verdict cricketReq 25 50 0 0 []).recommendation))) :=
  ⟨by decide, by norm_num [cricketReq],
    precip_over_tolerance_drops_tier "cricket".toList cricketReq (by decide) 25 50 0 1 []
      (by norm_num [cricketReq])⟩

/-- C5: for every activity in the catalog, a snapshot at the midpoint of the
optimal temperature range with wind 0, precipitation 0 and humidity 50
yields recommendation excellent and suitable = true. -/
theorem midpoint_snapshot_excellent (name : List Char) (req : ActivityReq)
    (hmem : (name, req) ∈ ACTIVITIES) (d : List Char) :
    (suitability_verdict req ((req.optimal_temp.1 + req.optimal_temp.2) / 2) 50 0 0 d).recommendation
        = .excellent ∧
    (suitability_verdict req ((req.optimal_temp.1 + req.optimal_temp.2) / 2) 50 0 0 d).suitable
        = true := by
  obtain ⟨h1, h2, h3⟩ := activities_bounds (name, req) hmem
  have hov : (suitability_verdict req ((req.optimal_temp.1 + req.optimal_temp.2) / 2) 50 0 0
      d).overall_score = 100 := by
    rw [overall_score_eq]
    unfold specTempPenalty specWindPenalty specPrecipPenalty specHumidityPenalty
      specHumidityPenalized
    rw [if_pos ⟨by linarith, by linarith⟩, if_neg (not_lt.mpr h2), if_neg (not_lt.mpr h3),
      if_neg ?hhum]
    · norm_num
    · rintro (⟨_, hh⟩ | ⟨_, hh | hh⟩) <;> norm_num at hh
  constructor
  · rw [recommendation_eq, hov]
    exact (recOfScore_cases _).1 (by norm_num)
  · rw [suitable_eq, hov]
    simp only [decide_eq_true_eq]
    norm_num

/-- Witness for C5 at the cricket profile. -/
theorem midpoint_snapshot_excellent_witness :
    ("cricket".toList, cricketReq) ∈ ACTIVITIES ∧
    ((suitability_verdict cricketReq
        ((cricketReq.optimal_temp.1 + cricketReq.optimal_temp.2) / 2) 50 0 0 []).recommendation
        = .excellent ∧
    (suitability_verdict cricketReq
        ((cricketReq.optimal_temp.1 + cricketReq.optimal_temp.2) / 2) 50 0 0 []).suitable
        = true) :=
  ⟨by decide, midpoint_snapshot_excellent "cricket".toList cricketReq (by decide) []⟩

/-- C6 counterexample: on the message "weather play" the classifier of the
source returns ACTIVITY_PLANNING (the "play" keyword is checked first),
while the claimed order — BASIC_WEATHER's keyword set checked first — would
return BASIC_WEATHER on the "weather" keyword. -/
theorem classifier_order_counterexample :
    classify_query_intent "weather play".toList = QueryType.ACTIVITY_PLANNING ∧
    classify_intent_claimed "weather play".toList = QueryType.BASIC_WEATHER ∧
    classify_query_intent "weather play".toList ≠
      classify_intent_claimed "weather play".toList := by
  refine ⟨?_, ?_, ?_⟩ <;> decide

/-- C6 amended: the classifier returns the first category, in the order
ACTIVITY_PLANNING, CLOTHING_ADVICE, TRAVEL_PLANNING, COMFORT_ASSESSMENT,
whose keyword set has a case-insensitive substring match in the message,
and BASIC_WEATHER when none of those four match; BASIC_WEATHER's own
keyword set is never consulted. -/
theorem classifier_first_match (message : List Char) :
    classify_query_intent message = classify_intent_amended message := rfl

/-- C7: for every gazetteer city, a message of the form
"weather in [city]" makes the modelled Extractor take the regex
trigger-phrase path and return that city title-cased with confidence
0.8 (the gazetteer path would only give 0.7). -/
theorem extractor_weather_in_city :
    (∀ c ∈ COMMON_CITIES,
      extract_city_spec ("weather in ".toList ++ c) = (c, confRegex)) ∧
    confRegex = 8 / 10 := by
  constructor
  · decide
  · unfold confRegex
    rw [Rat.mk'_eq_divInt, Rat.divInt_eq_div]
    norm_num

/-- Witness for C7 at the city Tokyo. -/
theorem extractor_weather_in_city_witness :
    "Tokyo".toList ∈ COMMON_CITIES ∧
    extract_city_spec ("weather in ".toList ++ "Tokyo".toList) = ("Tokyo".toList, confRegex) :=
  ⟨by decide, extractor_weather_in_city.1 "Tokyo".toList (by decide)⟩

/-- C8: a turn recognized as a pure greeting/thanks/farewell returns the
canned acknowledgment, leaves the remembered city untouched (and replies
without referencing it), and never performs a weather lookup. -/
theorem greeting_skips_weather_pipeline (s : SessionState) (message : List Char)
    (hg : isPureGreeting message = true) :
    (process_turn s message).1 = TurnResponse.acknowledgment ackText ∧
    (process_turn s message).2.1.last_city = s.last_city ∧
    (process_turn s message).2.2 = false := by
  unfold process_turn
  rw [if_pos hg]
  refine ⟨rfl, ?_, rfl⟩
  simp [append_history]

/-- Witness for C8: the message "thanks!" with Tokyo remembered. -/
theorem greeting_skips_weather_pipeline_witness :
    isPureGreeting "thanks!".toList = true ∧
    ((process_turn ⟨some "Tokyo".toList, 3, [], "en".toList⟩ "thanks!".toList).1 =
      TurnResponse.acknowledgment ackText ∧
    (process_turn ⟨some "Tokyo".toList, 3, [], "en".toList⟩ "thanks!".toList).2.1.last_city =
      (⟨some "Tokyo".toList, 3, [], "en".toList⟩ : SessionState).last_city ∧
    (process_turn ⟨some "Tokyo".toList, 3, [], "en".toList⟩ "thanks!".toList).2.2 = false) :=
  ⟨by decide,
    greeting_skips_weather_pipeline ⟨some "Tokyo".toList, 3, [], "en".toList⟩ "thanks!".toList
      (by decide)⟩

lemma isSubstr_iff (pat s : List Char) : isSubstr pat s = true ↔ pat <:+: s := by
  induction s with
  | nil => simp [isSubstr, List.isEmpty_iff]
  | cons c t ih =>
    simp [isSubstr, Bool.or_eq_true, ih, List.isPrefixOf_iff_prefix, List.infix_cons_iff]

/-- C9: for every location on which the provider reports NotFound (HTTP
404), the tool returns the well-formed user-facing message — it contains
"couldn't find weather" and "check the city name" — instead of crashing or
propagating a fault (`get_current_weather` is total over all provider
responses). -/
theorem notfound_returns_check_city_message (location : List Char) :
    get_current_weather location ProviderResponse.notFound = notFoundMessage location ∧
    isSubstr ("couldn".toList ++ [apos] ++ "t find weather".toList)
      (get_current_weather location ProviderResponse.notFound) = true ∧
    isSubstr "check the city name".toList
      (get_current_weather location ProviderResponse.notFound) = true := by
  refine ⟨rfl, ?_, ?_⟩
  · show isSubstr _ (notFoundMessage location) = true
    rw [isSubstr_iff]
    have hpre : ("couldn".toList ++ [apos] ++ "t find weather".toList) <:+:
        ("Sorry, I couldn".toList ++ [apos] ++ "t find weather data for ".toList) := by decide
    refine hpre.trans (List.IsPrefix.isInfix ⟨[apos] ++ location ++ [apos] ++
      ". Please check the city name and try again.".toList, ?_⟩)
    simp [notFoundMessage, List.append_assoc]
  · show isSubstr _ (notFoundMessage location) = true
    rw [isSubstr_iff]
    have hsuf : "check the city name".toList <:+:
        ". Please check the city name and try again.".toList := by decide
    refine hsuf.trans (List.IsSuffix.isInfix ⟨"Sorry, I couldn".toList ++ [apos] ++
      "t find weather data for ".toList ++ [apos] ++ location ++ [apos], ?_⟩)
    simp [notFoundMessage, List.append_assoc]

lemma currentWrapper_lookup (current : J) :
    (J.obj [("current".toList, current)]).lookup "current".toList = some current := by
  simp [J.lookup, lookupField, List.find?]

/-- C10: the scorer is total over missing optional fields — with "wind"
absent it scores with wind speed 0, with neither "rain" nor "snow" usable
(absent, or present without a "1h" sub-key) it scores with precipitation 0,
and on such payloads `analyze_activity_suitability` returns a verdict
rather than failing. -/
theorem scorer_total_on_missing_optional_fields
    (current mainObj : J) (t h : ℚ) (d : List Char)
    (name : List Char) (req : ActivityReq) (tc : List Char)
    (hfind : ACTIVITIES.find? (fun q => q.1 == name) = some (name, req))
    (hmain : current.lookup "main".toList = some mainObj)
    (ht : (mainObj.lookup "temp".toList).bind J.asNum = some t)
    (hh : (mainObj.lookup "humidity".toList).bind J.asNum = some h)
    (hw : current.lookup "wind".toList = none)
    (hp : precipDefaultsToZero current = true)
    (hd : weatherDescOf current = some d) :
    windSpeedOf current = some 0 ∧
    precipitationOf current = some 0 ∧
    analyze_activity_suitability (J.obj [("current".toList, current)]) name tc =
      some (.verdict (suitability_verdict req t h 0 0 d)) := by
  have hws : windSpeedOf current = some 0 := by
    unfold windSpeedOf
    rw [hw]
  have hpr : precipitationOf current = some 0 := by
    unfold precipitationOf
    unfold precipDefaultsToZero at hp
    cases hr : current.lookup "rain".toList with
    | some r =>
      rw [hr] at hp
      cases r with
      | obj rf =>
        simp only [get1hOrZero]
        simp only at hp
        rw [Option.isNone_iff_eq_none] at hp
        rw [hp]
      | num q => simp at hp
      | str s => simp at hp
      | arr l => simp at hp
    | none =>
      rw [hr] at hp
      cases hsnow : current.lookup "snow".toList with
      | none => rfl
      | some sv =>
        rw [hsnow] at hp
        cases sv with
        | obj sf =>
          show get1hOrZero (J.obj sf) = some 0
          simp only [get1hOrZero]
          simp only at hp
          rw [Option.isNone_iff_eq_none] at hp
          rw [hp]
        | num q => simp at hp
        | str s => simp at hp
        | arr l => simp at hp
  have hext : extract_metrics current = some (t, h, 0, 0, d) := by
    unfold extract_metrics
    simp only [hmain, ht, hh, hws, hpr, hd, Option.some_bind]
  refine ⟨hws, hpr, ?_⟩
  unfold analyze_activity_suitability
  rw [hfind]
  simp only [currentWrapper_lookup, hext, Option.some_bind]

/-- Witness for C10: a payload with temperature 22 and humidity 50 and no
wind, rain or snow keys, analyzed for cricket. -/
theorem scorer_total_on_missing_optional_fields_witness :
    ACTIVITIES.find? (fun q => q.1 == "cricket".toList) =
      some ("cricket".toList, cricketReq) ∧
    sampleCurrent.lookup "main".toList = some sampleMain ∧
    (sampleMain.lookup "temp".toList).bind J.asNum = some 22 ∧
    (sampleMain.lookup "humidity".toList).bind J.asNum = some 50 ∧
    sampleCurrent.lookup "wind".toList = none ∧
    precipDefaultsToZero sampleCurrent = true ∧
    weatherDescOf sampleCurrent = some "clear sky".toList ∧
    (windSpeedOf sampleCurrent = some 0 ∧
    precipitationOf sampleCurrent = some 0 ∧
    analyze_activity_suitability (J.obj [("current".toList, sampleCurrent)]) "cricket".toList
        "now".toList =
      some (.verdict (suitability_verdict cricketReq 22 50 0 0 "clear sky".toList))) :=
  ⟨rfl, rfl, rfl, rfl, rfl, rfl, rfl,
    scorer_total_on_missing_optional_fields sampleCurrent sampleMain 22 50 "clear sky".toList
      "cricket".toList cricketReq "now".toList rfl rfl rfl rfl rfl rfl rfl⟩

end WeatherBot
